import Mathlib

/-!
Verification of the inbound request-authentication subsystem of the
SwayTribe cloud-functions repository: the HMAC request-signature helpers
(canva-helper.ts), the JWT verification middleware
(canva_jwt_verification.ts), the nonce/CSRF handshake of the redirect flow
(index.ts), and the method gates of the signed endpoints.

Strings are modeled as lists of characters, byte strings as lists of
natural numbers below 256, and JS numbers as rational numbers together
with an explicit NaN (an `Option` rational: `none` is NaN). All
definitions are executable so that concrete scenarios evaluate by
`decide`.
-/

/-! ### JS string basics -/

/-- Test whether the first list is a leading segment of the second
(the shape of a JS `startsWith` / anchored regex-literal match). -/
def leadsWith : List Char → List Char → Bool
  | [], _ => true
  | _ :: _, [] => false
  | a :: as, b :: bs => a = b && leadsWith as bs

/-- JS `String.prototype.includes`: the needle occurs contiguously in the
haystack. -/
def jsIncludes (hay needle : List Char) : Bool :=
  (List.range (hay.length + 1)).any (fun i => leadsWith needle (hay.drop i))

/-- Lexicographic (code point) comparison of strings, the default
comparator of JS `Array.prototype.sort` on strings. (JS compares UTF-16
code units; this coincides with code points on the Basic Multilingual
Plane, which covers every header and query name in scope.) -/
def lexLe : List Char → List Char → Bool
  | [], _ => true
  | _ :: _, [] => false
  | a :: as, b :: bs =>
    if a.toNat < b.toNat then true
    else if b.toNat < a.toNat then false
    else lexLe as bs

/-- Insert into a lexicographically sorted list of strings. -/
def lexInsert (s : List Char) : List (List Char) → List (List Char)
  | [] => [s]
  | t :: ts => if lexLe s t then s :: t :: ts else t :: lexInsert s ts

/-- Sort a list of strings lexicographically (JS default sort on string
arrays; stable, which fixes the order fully alongside distinct keys). -/
def lexSort : List (List Char) → List (List Char)
  | [] => []
  | s :: ss => lexInsert s (lexSort ss)

/-- Join a list of strings with a separating colon, as
`Array.prototype.join` with separator ":". -/
def joinColon : List (List Char) → List Char
  | [] => []
  | [s] => s
  | s :: rest => s ++ ':' :: joinColon rest

/-- The whitespace characters recognized by JS (`\s`, `String.prototype.trim`),
restricted to the ASCII range; the Unicode space characters JS also
accepts do not occur in the requests in scope. -/
def jsWhitespaceChar (c : Char) : Bool :=
  c.toNat = 32 || c.toNat = 9 || c.toNat = 10 || c.toNat = 13 || c.toNat = 11 || c.toNat = 12

/-! ### JS numbers

A JS number is modeled as `Option ℚ`, with `none` playing NaN: every
arithmetic comparison against NaN is false, which is the only NaN
behavior the code under verification relies on. -/

/-- The numeric value of a digit string (most significant first). -/
def digitsVal (ds : List Char) : Nat :=
  ds.foldl (fun a c => a * 10 + (c.toNat - 48)) 0

/-- Decimal digit test. -/
def isDigitChar (c : Char) : Bool := 48 ≤ c.toNat && c.toNat ≤ 57

/-- Parse an unsigned decimal literal (digits, optionally with a decimal
point) to a rational, or NaN. Models the StrDecimalLiteral forms the
endpoints receive; exponent, hexadecimal and Infinity forms are not used
by any caller in scope and map to NaN here. -/
def parseUnsignedDec (t : List Char) : Option ℚ :=
  let intPart := t.takeWhile isDigitChar
  let rest := t.dropWhile isDigitChar
  match rest with
  | [] => if intPart = [] then none else some (digitsVal intPart : ℚ)
  | '.' :: frac =>
    if frac.all isDigitChar && (intPart ≠ [] || frac ≠ []) then
      some (mkRat (digitsVal intPart * 10 ^ frac.length + digitsVal frac) (10 ^ frac.length))
    else none
  | _ => none

/-- JS `Number()` applied to a string: trim whitespace, the empty string
is 0, otherwise parse an optionally signed decimal literal; anything else
is NaN. -/
def jsStringToNumber (s : List Char) : Option ℚ :=
  let t := ((s.dropWhile jsWhitespaceChar).reverse.dropWhile jsWhitespaceChar).reverse
  match t with
  | [] => some 0
  | '+' :: r => parseUnsignedDec r
  | '-' :: r => (parseUnsignedDec r).map (fun q => -q)
  | r => parseUnsignedDec r

/-- JS `Number()` applied to a possibly missing string value:
`Number(undefined)` is NaN. -/
def jsNumberOpt : Option (List Char) → Option ℚ
  | none => none
  | some s => jsStringToNumber s

/-- JS `String()` applied to a possibly missing string value:
`String(undefined)` is the literal string "undefined". -/
def jsStringOf : Option (List Char) → List Char
  | none => "undefined".data
  | some s => s

/-! ### Bytes: UTF-8, hex, base64 -/

/-- UTF-8 encoding of one character. -/
def utf8EncodeChar (c : Char) : List Nat :=
  let n := c.toNat
  if n < 128 then [n]
  else if n < 2048 then [192 + n / 64, 128 + n % 64]
  else if n < 65536 then [224 + n / 4096, 128 + n / 64 % 64, 128 + n % 64]
  else [240 + n / 262144, 128 + n / 4096 % 64, 128 + n / 64 % 64, 128 + n % 64]

/-- UTF-8 encoding of a string, the byte view Node takes of a JS string
when hashing it. -/
def utf8Encode (s : List Char) : List Nat :=
  (s.map utf8EncodeChar).flatten

/-- Lowercase hex digit for a value below 16. -/
def hexDigitChar (n : Nat) : Char :=
  if n < 10 then Char.ofNat (48 + n) else Char.ofNat (87 + n)

/-- Lowercase hex rendering of a byte list, as Node `digest("hex")`. -/
def hexOfBytes (bs : List Nat) : List Char :=
  (bs.map (fun b => [hexDigitChar (b / 16), hexDigitChar (b % 16)])).flatten

/-- The 6-bit value of a base64 alphabet character, accepting both the
standard and the url-safe alphabet, as the Node decoder does. -/
def b64CharVal (c : Char) : Option Nat :=
  let n := c.toNat
  if 65 ≤ n && n ≤ 90 then some (n - 65)
  else if 97 ≤ n && n ≤ 122 then some (n - 71)
  else if 48 ≤ n && n ≤ 57 then some (n + 4)
  else if n = 43 || n = 45 then some 62
  else if n = 47 || n = 95 then some 63
  else none

/-- Pack a stream of 6-bit groups into bytes, most significant bits
first, discarding trailing bits that do not fill a byte (the lenient
RFC 4648 reading that Node `Buffer.from(s, "base64")` implements). -/
def b64Pack : List Nat → Nat → Nat → List Nat
  | [], _, _ => []
  | v :: rest, acc, nbits =>
    let acc2 := acc * 64 + v
    if nbits + 6 ≥ 8 then
      (acc2 >>> (nbits - 2)) :: b64Pack rest (acc2 % 2 ^ (nbits - 2)) (nbits - 2)
    else b64Pack rest acc2 (nbits + 6)

/-- Node `Buffer.from(s, "base64")`: non-alphabet characters (including
padding) are skipped, then 6-bit groups are packed into bytes with excess
trailing bits discarded. -/
def base64DecodeNode (s : List Char) : List Nat :=
  b64Pack (s.filterMap b64CharVal) 0 0

/-! ### SHA-256 and HMAC-SHA256

Executable SHA-256 over byte lists, 32-bit words as naturals reduced
modulo 2 to the 32. -/

/-- Two to the 32, the word modulus. -/
def M32 : Nat := 4294967296

/-- Addition modulo 2 to the 32. -/
def add32 (a b : Nat) : Nat := (a + b) % M32

/-- Right rotation of a 32-bit word. -/
def rotr32 (n x : Nat) : Nat := ((x >>> n) ||| (x <<< (32 - n))) % M32

/-- Bitwise complement of a 32-bit word. -/
def not32 (x : Nat) : Nat := M32 - 1 - x

/-- Three-way xor. -/
def xor3 (a b c : Nat) : Nat := Nat.xor (Nat.xor a b) c

/-- The SHA-256 Sigma-0 function. -/
def bigSigma0 (x : Nat) : Nat := xor3 (rotr32 2 x) (rotr32 13 x) (rotr32 22 x)

/-- The SHA-256 Sigma-1 function. -/
def bigSigma1 (x : Nat) : Nat := xor3 (rotr32 6 x) (rotr32 11 x) (rotr32 25 x)

/-- The SHA-256 sigma-0 function. -/
def smallSigma0 (x : Nat) : Nat := xor3 (rotr32 7 x) (rotr32 18 x) (x >>> 3)

/-- The SHA-256 sigma-1 function. -/
def smallSigma1 (x : Nat) : Nat := xor3 (rotr32 17 x) (rotr32 19 x) (x >>> 10)

/-- The SHA-256 Ch function. -/
def chFn (x y z : Nat) : Nat := Nat.xor (Nat.land x y) (Nat.land (not32 x) z)

/-- The SHA-256 Maj function. -/
def majFn (x y z : Nat) : Nat := xor3 (Nat.land x y) (Nat.land x z) (Nat.land y z)

/-- The 64 SHA-256 round constants. -/
def shaK : List Nat :=
  [1116352408, 1899447441, 3049323471, 3921009573, 961987163, 1508970993,
   2453635748, 2870763221, 3624381080, 310598401, 607225278, 1426881987,
   1925078388, 2162078206, 2614888103, 3248222580, 3835390401, 4022224774,
   264347078, 604807628, 770255983, 1249150122, 1555081692, 1996064986,
   2554220882, 2821834349, 2952996808, 3210313671, 3336571891, 3584528711,
   113926993, 338241895, 666307205, 773529912, 1294757372, 1396182291,
   1695183700, 1986661051, 2177026350, 2456956037, 2730485921, 2820302411,
   3259730800, 3345764771, 3516065817, 3600352804, 4094571909, 275423344,
   430227734, 506948616, 659060556, 883997877, 958139571, 1322822218,
   1537002063, 1747873779, 1955562222, 2024104815, 2227730452, 2361852424,
   2428436474, 2756734187, 3204031479, 3329325298]

/-- The eight 32-bit words of a SHA-256 state. -/
structure Hash8 where
  a : Nat
  b : Nat
  c : Nat
  d : Nat
  e : Nat
  f : Nat
  g : Nat
  h : Nat
deriving DecidableEq

/-- The SHA-256 initial state. -/
def shaInit : Hash8 :=
  ⟨1779033703, 3144134277, 1013904242, 2773480762,
   1359893119, 2600822924, 528734635, 1541459225⟩

/-- The next message-schedule word, from the words produced so far. -/
def nextWord (ws : List Nat) : Nat :=
  let i := ws.length
  (smallSigma1 (ws.getD (i - 2) 0) + ws.getD (i - 7) 0 +
   smallSigma0 (ws.getD (i - 15) 0) + ws.getD (i - 16) 0) % M32

/-- Message-schedule expansion: append the given number of further words. -/
def buildSchedule : Nat → List Nat → List Nat
  | 0, ws => ws
  | n + 1, ws => buildSchedule n (ws ++ [nextWord ws])

/-- One SHA-256 round. -/
def roundFn (st : Hash8) (k w : Nat) : Hash8 :=
  let t1 := (st.h + bigSigma1 st.e + chFn st.e st.f st.g + k + w) % M32
  let t2 := (bigSigma0 st.a + majFn st.a st.b st.c) % M32
  ⟨(t1 + t2) % M32, st.a, st.b, st.c, (st.d + t1) % M32, st.e, st.f, st.g⟩

/-- Run the rounds over paired round constants and schedule words. -/
def shaRounds : List (Nat × Nat) → Hash8 → Hash8
  | [], st => st
  | (k, w) :: rest, st => shaRounds rest (roundFn st k w)

/-- Componentwise addition of states modulo 2 to the 32. -/
def addHash (x y : Hash8) : Hash8 :=
  ⟨add32 x.a y.a, add32 x.b y.b, add32 x.c y.c, add32 x.d y.d,
   add32 x.e y.e, add32 x.f y.f, add32 x.g y.g, add32 x.h y.h⟩

/-- Group a byte list into 32-bit big-endian words. -/
def bytesToWords : List Nat → List Nat
  | b0 :: b1 :: b2 :: b3 :: rest =>
    (b0 * 16777216 + b1 * 65536 + b2 * 256 + b3) :: bytesToWords rest
  | _ => []

/-- The SHA-256 compression function on one 64-byte block. -/
def compress (st : Hash8) (block : List Nat) : Hash8 :=
  let ws := buildSchedule 48 (bytesToWords block)
  addHash st (shaRounds (shaK.zip ws) st)

/-- Split a byte list into 64-byte blocks; the fuel bounds the recursion
(any fuel at least the length of the list is enough). -/
def chunks : Nat → List Nat → List (List Nat)
  | 0, _ => []
  | _, [] => []
  | fuel + 1, bs => bs.take 64 :: chunks fuel (bs.drop 64)

/-- SHA-256 padding: a 1 bit, zeros to 56 modulo 64, and the bit length
as a 64-bit big-endian integer. -/
def padMessage (msg : List Nat) : List Nat :=
  let len := msg.length
  let bitLen := len * 8
  msg ++ [128] ++ List.replicate ((119 - len % 64) % 64) 0 ++
    [bitLen / 72057594037927936 % 256, bitLen / 281474976710656 % 256,
     bitLen / 1099511627776 % 256, bitLen / 4294967296 % 256,
     bitLen / 16777216 % 256, bitLen / 65536 % 256, bitLen / 256 % 256, bitLen % 256]

/-- Big-endian bytes of a 32-bit word. -/
def word2bytes (w : Nat) : List Nat :=
  [w / 16777216 % 256, w / 65536 % 256, w / 256 % 256, w % 256]

/-- The 32 digest bytes of a final state. -/
def hashToBytes (st : Hash8) : List Nat :=
  word2bytes st.a ++ word2bytes st.b ++ word2bytes st.c ++ word2bytes st.d ++
  word2bytes st.e ++ word2bytes st.f ++ word2bytes st.g ++ word2bytes st.h

/-- SHA-256 of a byte list. -/
def sha256 (msg : List Nat) : List Nat :=
  let padded := padMessage msg
  hashToBytes ((chunks padded.length padded).foldl compress shaInit)

/-- HMAC-SHA256 with the usual 64-byte block: hash an overlong key, pad
with zeros, inner hash under the 0x36 pad, outer hash under the 0x5c pad. -/
def hmacSha256 (key msg : List Nat) : List Nat :=
  let k0 := if 64 < key.length then sha256 key else key
  let k := k0 ++ List.replicate (64 - k0.length) 0
  sha256 ((k.map (fun b => Nat.xor b 92)) ++ sha256 ((k.map (fun b => Nat.xor b 54)) ++ msg))

/-- Test vector: SHA-256 of "abc" (FIPS 180-2, example B.1). -/
theorem sha256_abc_vector :
    sha256 (utf8Encode "abc".data) =
      [186, 120, 22, 191, 143, 1, 207, 234, 65, 65, 64, 222,
       93, 174, 34, 35, 176, 3, 97, 163, 150, 23, 122, 156,
       180, 16, 255, 97, 242, 0, 21, 173] := by
  decide

set_option maxRecDepth 100000

/-- Test vector: HMAC-SHA256 with key "Jefe" (RFC 4231, test case 2). -/
theorem hmac_jefe_vector :
    hexOfBytes (hmacSha256 (utf8Encode "Jefe".data)
        (utf8Encode "what do ya want for nothing?".data)) =
      "5bdcc146bf60754e6a042426089575c75a003f089d2739839dec58b964ec3843".data := by
  decide

/-! ### canva-helper.ts: the signature helpers -/

/-- An HTTP request as the signature helpers see it: the header list
(names lowercased by Node, insertion order), the path, the raw body bytes
rendered to the string the template literal produces, and the query
parameters (string-valued; the array and nested forms the qs module can
produce do not occur in the signed-request flows in scope). -/
structure HttpRequest where
  headers : List (List Char × List Char)
  path : List Char
  rawBody : List Char
  query : List (List Char × List Char)

/-- Header lookup by lowercase name, as request.header performs it. -/
def requestHeader (request : HttpRequest) (name : List Char) : Option (List Char) :=
  (request.headers.find? (fun p => p.1 == name)).map Prod.snd

/-- Query-parameter lookup. -/
def queryGet (request : HttpRequest) (name : List Char) : Option (List Char) :=
  (request.query.find? (fun p => p.1 == name)).map Prod.snd

/-- The header names excluded from the canonical header string. -/
def FILTERED_HEADERS : List (List Char) :=
  ["x-canva-signature".data, "x-forwarded-".data]

/-- createHeaderString from canva-helper.ts: keep the header names with
leading "x-" that do not start with a filtered name, sort the names, and
join the corresponding values with colons. -/
def createHeaderString (headers : List (List Char × List Char)) : List Char :=
  joinColon ((lexSort (((headers.map Prod.fst).filter
      (fun h => leadsWith "x-".data h)).filter
      (fun h => ! FILTERED_HEADERS.any (fun f => leadsWith f h)))).map
    (fun key => ((headers.find? (fun p => p.1 == key)).map Prod.snd).getD []))

/-- createQueryParameterString from canva-helper.ts: keep the parameter
names with leading "x-", sort them, join the corresponding values with
colons. -/
def createQueryParameterString (params : List (List Char × List Char)) : List Char :=
  joinColon ((lexSort ((params.map Prod.fst).filter
      (fun h => leadsWith "x-".data h))).map
    (fun key => ((params.find? (fun p => p.1 == key)).map Prod.snd).getD []))

/-- Subtraction of rationals in a kernel-evaluable form (the library
subtraction is irreducible by design). -/
def ratSub (a b : ℚ) : ℚ := mkRat (a.num * b.den - b.num * a.den) (a.den * b.den)

theorem ratSub_eq (a b : ℚ) : ratSub a b = a - b := (Rat.sub_def' a b).symm

/-- Math.abs on the rationals, in a kernel-evaluable form. -/
def ratAbs (q : ℚ) : ℚ := if Rat.blt q 0 then -q else q

theorem ratAbs_eq_abs (q : ℚ) : ratAbs q = |q| := by
  unfold ratAbs
  by_cases h : q.blt 0 = true
  · rw [if_pos h, abs_of_neg (show q < 0 from h)]
  · rw [if_neg h, abs_of_nonneg (le_of_not_lt (show ¬ q < 0 from h))]

/-- isValidTimestamp from canva-helper.ts: the absolute difference of the
two numbers is below 300 seconds; a NaN operand fails the comparison, as
in JS. -/
def isValidTimestamp (sentAt receivedAt : Option ℚ) : Bool :=
  match sentAt, receivedAt with
  | some a, some b => decide (ratAbs (ratSub a b) < 300)
  | _, _ => false

/-- calculateSignature from canva-helper.ts: hex HMAC-SHA256 of the
payload under the key obtained by base64-decoding the secret. -/
def calculateSignature (secret payload : List Char) : List Char :=
  hexOfBytes (hmacSha256 (base64DecodeNode secret) (utf8Encode payload))

/-- The payload string isValidPostRequest signs: version, canonical
header string, path and raw body joined with colons. -/
def postRequestPayload (request : HttpRequest) : List Char :=
  "v1:".data ++ createHeaderString request.headers ++ ":".data ++ request.path ++
    ":".data ++ request.rawBody

/-- isValidPostRequest from canva-helper.ts, the current time passed
explicitly (the source reads the clock); signature comparison is
String.prototype.includes on the X-Canva-Signatures header value. -/
def isValidPostRequest (secret : List Char) (request : HttpRequest) (now : ℚ) : Bool :=
  if ! isValidTimestamp (jsNumberOpt (requestHeader request "x-canva-timestamp".data))
      (some now) then false
  else if ! jsIncludes (jsStringOf (requestHeader request "x-canva-signatures".data))
      (calculateSignature secret (postRequestPayload request)) then false
  else true

/-- The payload string isValidGetRequest signs. -/
def getRequestPayload (request : HttpRequest) : List Char :=
  "v1:".data ++ createHeaderString request.headers ++ ":".data ++ request.path ++
    ":".data ++ createQueryParameterString request.query

/-- isValidGetRequest from canva-helper.ts. -/
def isValidGetRequest (secret : List Char) (request : HttpRequest) (now : ℚ) : Bool :=
  if ! isValidTimestamp (jsNumberOpt (requestHeader request "x-canva-timestamp".data))
      (some now) then false
  else if ! jsIncludes (jsStringOf (requestHeader request "x-canva-signatures".data))
      (calculateSignature secret (getRequestPayload request)) then false
  else true

/-- The payload string isValidRedirectUrl signs: the fixed field order
time, user, brand, extensions, state, each rendered by the template
literal (a missing parameter renders as "undefined"). -/
def redirectUrlPayload (request : HttpRequest) : List Char :=
  "v1:".data ++ jsStringOf (queryGet request "time".data) ++ ":".data ++
    jsStringOf (queryGet request "user".data) ++ ":".data ++
    jsStringOf (queryGet request "brand".data) ++ ":".data ++
    jsStringOf (queryGet request "extensions".data) ++ ":".data ++
    jsStringOf (queryGet request "state".data)

/-- isValidRedirectUrl from canva-helper.ts: the timestamp comes from the
time query parameter, the candidate signatures from the signatures query
parameter. -/
def isValidRedirectUrl (secret : List Char) (request : HttpRequest) (now : ℚ) : Bool :=
  if ! isValidTimestamp (jsNumberOpt (queryGet request "time".data)) (some now) then false
  else if ! jsIncludes (jsStringOf (queryGet request "signatures".data))
      (calculateSignature secret (redirectUrlPayload request)) then false
  else true

/-! ### Supporting lemmas on the string primitives -/

theorem leadsWith_append (s t : List Char) : leadsWith s (s ++ t) = true := by
  induction s with
  | nil => rfl
  | cons a as ih => simp [leadsWith, ih]

theorem jsIncludes_self_append (s t : List Char) : jsIncludes (s ++ t) s = true := by
  unfold jsIncludes
  rw [List.any_eq_true]
  exact ⟨0, List.mem_range.mpr (Nat.succ_pos _), by simpa using leadsWith_append s t⟩

theorem jsIncludes_refl (s : List Char) : jsIncludes s s = true := by
  have h := jsIncludes_self_append s []
  simpa using h

theorem leadsWith_length_le (n h : List Char) (hl : leadsWith n h = true) :
    n.length ≤ h.length := by
  induction n generalizing h with
  | nil => simp
  | cons a as ih =>
    cases h with
    | nil => simp [leadsWith] at hl
    | cons b bs =>
      simp only [leadsWith, Bool.and_eq_true] at hl
      simpa using ih bs hl.2

theorem leadsWith_eq_of_length (n h : List Char) (hl : leadsWith n h = true)
    (hlen : n.length = h.length) : n = h := by
  induction n generalizing h with
  | nil =>
    cases h with
    | nil => rfl
    | cons b bs => simp at hlen
  | cons a as ih =>
    cases h with
    | nil => simp [leadsWith] at hl
    | cons b bs =>
      simp only [leadsWith, Bool.and_eq_true, decide_eq_true_eq] at hl
      simp only [List.length_cons, Nat.succ_inj] at hlen
      rw [hl.1, ih bs hl.2 hlen]

theorem jsIncludes_eq_of_length (hay needle : List Char)
    (hlen : needle.length = hay.length) (hinc : jsIncludes hay needle = true) :
    needle = hay := by
  unfold jsIncludes at hinc
  rw [List.any_eq_true] at hinc
  obtain ⟨i, _, hp⟩ := hinc
  have hle := leadsWith_length_le _ _ hp
  rw [List.length_drop] at hle
  have hi : i = 0 ∨ hay.length = 0 := by omega
  rcases hi with hi | hi
  · subst hi
    exact leadsWith_eq_of_length _ _ (by simpa using hp) hlen
  · have hhe : hay = [] := List.length_eq_zero.mp hi
    have hne : needle = [] := List.length_eq_zero.mp (by omega)
    rw [hhe, hne]

theorem sha256_length (msg : List Nat) : (sha256 msg).length = 32 := rfl

theorem hmacSha256_length (key msg : List Nat) : (hmacSha256 key msg).length = 32 := by
  unfold hmacSha256
  exact sha256_length _

theorem hexOfBytes_length (bs : List Nat) : (hexOfBytes bs).length = 2 * bs.length := by
  induction bs with
  | nil => rfl
  | cons b rest ih =>
    simp only [hexOfBytes, List.map_cons, List.flatten_cons] at *
    simp [ih]
    ring

theorem calculateSignature_length (secret payload : List Char) :
    (calculateSignature secret payload).length = 64 := by
  unfold calculateSignature
  rw [hexOfBytes_length, hmacSha256_length]

/-! ### Claim C1: the end-to-end POST scenario -/

/-- The C1 scenario request: path /hook, empty body, the single signed
header x-canva-timestamp with value 1000, and an X-Canva-Signatures
header carrying the given candidate string. -/
def c1Request (signatureHeaderValue : List Char) : HttpRequest :=
  { headers := [("x-canva-timestamp".data, "1000".data),
                ("x-canva-signatures".data, signatureHeaderValue)],
    path := "/hook".data, rawBody := [], query := [] }

/-- The signature the spec expects in the C1 scenario: hex HMAC-SHA256 of
the string "v1::/hook:" under the key "secret". -/
def c1SpecSignature : List Char :=
  hexOfBytes (hmacSha256 (utf8Encode "secret".data) (utf8Encode "v1::/hook:".data))

/-- The signature the code computes in the C1 scenario: the canonical
header string is "1000" (the timestamp header is not filtered out), so
the signed payload is "v1:1000:/hook:". -/
def c1CodeSignature : List Char :=
  hexOfBytes (hmacSha256 (utf8Encode "secret".data) (utf8Encode "v1:1000:/hook:".data))

/-- C1, counterexample: in the scenario of the claim the signature
computed by calculateSignature differs from the hex HMAC-SHA256 of
"v1::/hook:" under "secret" (the payload actually signed is
"v1:1000:/hook:", because the timestamp header value enters the canonical
header string), and a request carrying exactly the hex string of the
claim is rejected by isValidPostRequest. -/
theorem c1_counterexample :
    calculateSignature "c2VjcmV0".data (postRequestPayload (c1Request [])) ≠ c1SpecSignature
    ∧ isValidPostRequest "c2VjcmV0".data (c1Request c1SpecSignature) 1000 = false := by
  constructor
  · decide
  · decide

/-- C1, amended: in the same scenario the computed signature equals the
hex HMAC-SHA256 of "v1:1000:/hook:" under the key "secret"; a request
carrying exactly that hex string authenticates; and, the comparison being
substring containment, a request carrying that hex string with one
trailing character appended also authenticates. -/
theorem c1_amended_scenario :
    calculateSignature "c2VjcmV0".data (postRequestPayload (c1Request c1CodeSignature)) =
      c1CodeSignature
    ∧ isValidPostRequest "c2VjcmV0".data (c1Request c1CodeSignature) 1000 = true
    ∧ isValidPostRequest "c2VjcmV0".data (c1Request (c1CodeSignature ++ "x".data)) 1000 = true := by
  refine ⟨by decide, by decide, by decide⟩

/-! ### Claim C5: the timestamp tolerance window -/

/-- C5: the timestamp validator accepts exactly when the absolute
difference of claimed and current time is below 300 seconds, and the
window is symmetric: now - 299 is accepted, now - 301 is rejected,
now + 299 is accepted. -/
theorem c5_timestamp_window :
    (∀ claimed now : ℚ,
        isValidTimestamp (some claimed) (some now) = true ↔ |now - claimed| < 300)
    ∧ (∀ now : ℚ, isValidTimestamp (some (now - 299)) (some now) = true)
    ∧ (∀ now : ℚ, isValidTimestamp (some (now - 301)) (some now) = false)
    ∧ (∀ now : ℚ, isValidTimestamp (some (now + 299)) (some now) = true) := by
  refine ⟨fun claimed now => ?_, fun now => ?_, fun now => ?_, fun now => ?_⟩
  · simp [isValidTimestamp, ratSub_eq, ratAbs_eq_abs, abs_sub_comm]
  · simp only [isValidTimestamp, ratSub_eq, ratAbs_eq_abs, decide_eq_true_eq]
    rw [show now - 299 - now = -299 by ring]
    norm_num
  · simp only [isValidTimestamp, ratSub_eq, ratAbs_eq_abs, decide_eq_false_iff_not]
    rw [show now - 301 - now = -301 by ring]
    norm_num
  · simp only [isValidTimestamp, ratSub_eq, ratAbs_eq_abs, decide_eq_true_eq]
    rw [show now + 299 - now = 299 by ring]
    norm_num

/-! ### Claim C6: missing or non-numeric timestamps fail arithmetically -/

theorem isValidTimestamp_reject (v : Option ℚ) (now : ℚ)
    (h : v = none ∨ (v = some 0 ∧ 300 ≤ now)) :
    isValidTimestamp v (some now) = false := by
  rcases h with h | ⟨h, hn⟩
  · subst h; rfl
  · subst h
    simp only [isValidTimestamp, ratSub_eq, ratAbs_eq_abs, decide_eq_false_iff_not]
    rw [zero_sub, abs_neg, abs_of_nonneg (by linarith)]
    linarith

/-- C6: when the timestamp header coerces to NaN (missing or non-numeric)
or to 0 (empty or all-whitespace string, with the current time at least
300 seconds after the epoch), the timestamp check itself fails, so
isValidPostRequest and isValidGetRequest return false; likewise
isValidRedirectUrl when the time query parameter so coerces. No separate
special case for missing timestamps exists in these functions. -/
theorem c6_missing_timestamp_rejected :
    ∀ (secret : List Char) (request : HttpRequest) (now : ℚ),
      ((jsNumberOpt (requestHeader request "x-canva-timestamp".data) = none ∨
          (jsNumberOpt (requestHeader request "x-canva-timestamp".data) = some 0 ∧ 300 ≤ now)) →
        isValidPostRequest secret request now = false
        ∧ isValidGetRequest secret request now = false)
      ∧ ((jsNumberOpt (queryGet request "time".data) = none ∨
          (jsNumberOpt (queryGet request "time".data) = some 0 ∧ 300 ≤ now)) →
        isValidRedirectUrl secret request now = false) := by
  intro secret request now
  constructor
  · intro h
    have hts := isValidTimestamp_reject _ now h
    constructor
    · simp [isValidPostRequest, hts]
    · simp [isValidGetRequest, hts]
  · intro h
    have hts := isValidTimestamp_reject _ now h
    simp [isValidRedirectUrl, hts]

/-- A request with no headers and no query parameters. -/
def bareRequest : HttpRequest :=
  { headers := [], path := "/hook".data, rawBody := [], query := [] }

/-- Witness for C6: the bare request has no timestamp header and no time
parameter, and all three validators reject it. -/
theorem c6_missing_timestamp_rejected_witness :
    isValidPostRequest [] bareRequest 1000 = false
    ∧ isValidGetRequest [] bareRequest 1000 = false
    ∧ isValidRedirectUrl [] bareRequest 1000 = false := by
  have h := c6_missing_timestamp_rejected [] bareRequest 1000
  have h1 := h.1 (Or.inl (by decide))
  have h2 := h.2 (Or.inl (by decide))
  exact ⟨h1.1, h1.2, h2⟩

/-! ### Claim C7: the signature round trip and byte flips -/

/-- C7, counterexample: flipping the single byte Q of the base64 secret
"cQ==" to R leaves the decoded key bytes unchanged (the final four bits
of the last alphabet character are discarded), so the recomputed
signature still verifies against a candidate set carrying the original
signature: the verification is true where the claim requires false. -/
theorem c7_counterexample :
    jsIncludes (calculateSignature "cQ==".data "payload".data)
        (calculateSignature "cR==".data "payload".data) = true
    ∧ "cQ==".data ≠ "cR==".data := by
  constructor
  · have hkey : base64DecodeNode "cR==".data = base64DecodeNode "cQ==".data := by decide
    unfold calculateSignature
    rw [hkey]
    exact jsIncludes_refl _
  · decide

/-- C7, amended: the round trip always verifies, and a recomputed
signature fails to verify against a candidate set carrying exactly the
original signature whenever the recomputed hex digest differs from the
original (both digests have the fixed length 64, so substring containment
degenerates to equality); flipping a byte of the secret or payload
refutes verification exactly when it changes the digest, which a
base64-trailing-bit change of the secret does not. -/
theorem c7_roundtrip_and_exact :
    (∀ secret payload : List Char,
        jsIncludes (calculateSignature secret payload)
          (calculateSignature secret payload) = true)
    ∧ (∀ s p s2 p2 : List Char,
        calculateSignature s2 p2 ≠ calculateSignature s p →
        jsIncludes (calculateSignature s p) (calculateSignature s2 p2) = false) := by
  constructor
  · intro secret payload
    exact jsIncludes_refl _
  · intro s p s2 p2 hne
    cases hinc : jsIncludes (calculateSignature s p) (calculateSignature s2 p2) with
    | false => rfl
    | true =>
      exact absurd (jsIncludes_eq_of_length _ _
        (by rw [calculateSignature_length, calculateSignature_length]) hinc) hne

/-- Witness for C7: a genuinely changed payload changes the digest, and
the changed signature indeed fails to verify. -/
theorem c7_roundtrip_and_exact_witness :
    jsIncludes (calculateSignature [] "a".data) (calculateSignature [] "b".data) = false :=
  c7_roundtrip_and_exact.2 [] "a".data [] "b".data (by decide)

/-! ### canva_jwt_verification.ts: token extraction -/

/-- The character class of looksLikeJWT: letters, digits, the plus,
slash, dash, underscore, equals and dot characters, case-insensitively. -/
def base64ishChar (c : Char) : Bool :=
  (97 ≤ c.toNat && c.toNat ≤ 122) || (65 ≤ c.toNat && c.toNat ≤ 90) ||
  (48 ≤ c.toNat && c.toNat ≤ 57) || c.toNat = 43 || c.toNat = 47 ||
  c.toNat = 45 || c.toNat = 95 || c.toNat = 61 || c.toNat = 46

/-- looksLikeJWT from canva_jwt_verification.ts: the token is a nonempty
run of base64-alphabet-like characters. -/
def looksLikeJWT (token : List Char) : Bool :=
  !token.isEmpty && token.all base64ishChar

/-- The anchored case-insensitive match of the header against
Bearer-whitespace-token: six characters folding to "bearer", at least one
whitespace character, then a nonempty whitespace-free remainder. -/
def matchesBearerScheme (h : List Char) : Bool :=
  ((h.take 6).map Char.toLower == "bearer".data) &&
  !((h.drop 6).takeWhile jsWhitespaceChar).isEmpty &&
  !((h.drop 6).dropWhile jsWhitespaceChar).isEmpty &&
  ((h.drop 6).dropWhile jsWhitespaceChar).all (fun c => ! jsWhitespaceChar c)

/-- The replacement that strips the scheme and the following whitespace
run from the header. -/
def stripBearerScheme (h : List Char) : List Char :=
  (h.drop 6).dropWhile jsWhitespaceChar

/-- getTokenFromHttpHeader from canva_jwt_verification.ts: reject a
missing (or empty, which is falsy) header, a header that does not match
the Bearer scheme, and a stripped token that does not look like a JWT;
otherwise return the stripped token. Errors carry the
JWTAuthorizationError message. -/
def getTokenFromHttpHeader (header : Option (List Char)) : Except (List Char) (List Char) :=
  match header with
  | none => .error "Missing the \"Authorization\" header".data
  | some h =>
    if h.isEmpty then .error "Missing the \"Authorization\" header".data
    else if ! matchesBearerScheme h then
      .error "Missing a \"Bearer\" token in the \"Authorization\" header".data
    else
      let token := stripBearerScheme h
      if token.isEmpty || ! looksLikeJWT token then
        .error "Invalid \"Bearer\" token in the \"Authorization\" header".data
      else .ok token

/-! ### canva_jwt_verification.ts: the middleware -/

/-- The failures jwt.verify can throw in this flow. -/
inductive JwtVerifyErr
  | invalidSignature
  | tokenExpired
  | audienceInvalid
deriving DecidableEq

/-- A decoded bearer token as the middleware sees it: the kid claim
header (none when the token is undecodable or carries no kid), whether
its signature verifies under the key resolved for that kid, the exp
claim in epoch seconds, and the aud, userId and brandId payload fields. -/
structure JwtToken where
  kid : Option (List Char)
  sigValid : Bool
  exp : Option ℚ
  aud : Option (List Char)
  userId : Option (List Char)
  brandId : Option (List Char)

/-- The audience check of jwt.verify: the aud payload claim must equal
the expected audience. -/
def jwtVerifyAudience (t : JwtToken) (audience : List Char) : Except JwtVerifyErr JwtToken :=
  match t.aud with
  | some a => if a == audience then .ok t else .error .audienceInvalid
  | none => .error .audienceInvalid

/-- Models jwt.verify of the jsonwebtoken library: the signature is
checked first, then the exp claim (expired when the clock is at or past
exp), then the audience option. -/
def jwtVerify (t : JwtToken) (audience : List Char) (now : ℚ) : Except JwtVerifyErr JwtToken :=
  if ! t.sigValid then .error .invalidSignature
  else
    match t.exp with
    | some e => if ! Rat.blt now e then .error .tokenExpired else jwtVerifyAudience t audience
    | none => jwtVerifyAudience t audience

/-- The errors the try block of the middleware can throw: a
JWTAuthorizationError from the token extractor, a SigningKeyNotFoundError
from the jwks client, or an error thrown by jwt.verify. -/
inductive ThrownErr
  | jwtAuth (msg : List Char)
  | signingKeyNotFound
  | jwtVerifyFailure (k : JwtVerifyErr)
deriving DecidableEq

/-- instanceof JWTAuthorizationError. -/
def isJWTAuthorizationErr : ThrownErr → Bool
  | .jwtAuth _ => true
  | _ => false

/-- instanceof SigningKeyNotFoundError. -/
def isSigningKeyNotFoundErr : ThrownErr → Bool
  | .signingKeyNotFound => true
  | _ => false

/-- instanceof jwt.JsonWebTokenError: every error jwt.verify throws is an
instance, including TokenExpiredError, which extends JsonWebTokenError in
the jsonwebtoken library. -/
def isJsonWebTokenErr : ThrownErr → Bool
  | .jwtVerifyFailure _ => true
  | _ => false

/-- instanceof jwt.TokenExpiredError. -/
def isTokenExpiredErr : ThrownErr → Bool
  | .jwtVerifyFailure .tokenExpired => true
  | _ => false

/-- The message property of a thrown error, where the middleware reads
one. -/
def thrownMessage : ThrownErr → Option (List Char)
  | .jwtAuth m => some m
  | _ => none

/-- The outcome of the middleware: a 401 with an optional message, a
successful next() with the identity attached as req.canva, or next(e)
for an unrecognized error. -/
inductive MwResult
  | unauthorized (message : Option (List Char))
  | authed (appId brandId userId : List Char)
  | internalError
deriving DecidableEq

/-- The try block of the middleware returned by constructJwtMiddleware:
extract the token, require a kid claim header (401 without message
otherwise), resolve the signing key, verify the token, require the
userId, brandId and aud payload fields (401 without message otherwise),
and attach the identity. -/
def jwtMiddlewareTry (appId : List Char) (keyFound : List Char → Bool)
    (tokenResult : Except (List Char) JwtToken) (now : ℚ) : Except ThrownErr MwResult :=
  match tokenResult with
  | .error m => .error (.jwtAuth m)
  | .ok t =>
    match t.kid with
    | none => .ok (.unauthorized none)
    | some kid =>
      if ! keyFound kid then .error .signingKeyNotFound
      else
        match jwtVerify t appId now with
        | .error e => .error (.jwtVerifyFailure e)
        | .ok v =>
          match v.userId, v.brandId, v.aud with
          | some u, some b, some a => .ok (.authed a b u)
          | _, _, _ => .ok (.unauthorized none)

/-- The catch block of the middleware, with the instanceof chain in
source order: JWTAuthorizationError, SigningKeyNotFoundError,
JsonWebTokenError, TokenExpiredError, otherwise next(e). -/
def jwtMiddlewareCatch (e : ThrownErr) : MwResult :=
  if isJWTAuthorizationErr e then .unauthorized (thrownMessage e)
  else if isSigningKeyNotFoundErr e then .unauthorized (some "Public key not found".data)
  else if isJsonWebTokenErr e then .unauthorized (some "Token is invalid".data)
  else if isTokenExpiredErr e then .unauthorized (some "Token expired".data)
  else .internalError

/-- constructJwtMiddleware from canva_jwt_verification.ts: the try block
guarded by the catch chain. -/
def constructJwtMiddleware (appId : List Char) (keyFound : List Char → Bool)
    (tokenResult : Except (List Char) JwtToken) (now : ℚ) : MwResult :=
  match jwtMiddlewareTry appId keyFound tokenResult now with
  | .ok r => r
  | .error e => jwtMiddlewareCatch e

/-! ### Claim C3: expired tokens and the catch chain -/

/-- A well-formed token whose kid resolves and whose signature is valid,
but which expired at time 1000. -/
def c3ExpiredToken : JwtToken :=
  { kid := some "key-1".data, sigValid := true, exp := some 1000,
    aud := some "app-id".data, userId := some "user-1".data, brandId := some "brand-1".data }

/-- C3: at time 2000 the middleware answers the expired token with the
message of the generic JsonWebTokenError branch, "Token is invalid", and
not with "Token expired": TokenExpiredError extends JsonWebTokenError in
the jsonwebtoken library, and the catch chain tests JsonWebTokenError
first, so the "Token expired" branch is unreachable. -/
theorem c3_expired_token_gets_generic_message :
    constructJwtMiddleware "app-id".data (fun _ => true) (.ok c3ExpiredToken) 2000 =
      .unauthorized (some "Token is invalid".data)
    ∧ constructJwtMiddleware "app-id".data (fun _ => true) (.ok c3ExpiredToken) 2000 ≠
      .unauthorized (some "Token expired".data) := by
  constructor
  · decide
  · decide

/-! ### Claim C4: signature checked before payload claims -/

/-- C4: a token with an invalid signature and a missing userId claim is
rejected through the InvalidSignature path with message "Token is
invalid" (jwt.verify throws before the payload-field check runs), never
through the missing-claims rejection, which carries no message. -/
theorem c4_invalid_signature_before_missing_claims :
    ∀ (appId : List Char) (keyFound : List Char → Bool) (t : JwtToken) (now : ℚ)
      (k : List Char),
      t.kid = some k → keyFound k = true → t.sigValid = false → t.userId = none →
      constructJwtMiddleware appId keyFound (.ok t) now =
        .unauthorized (some "Token is invalid".data)
      ∧ constructJwtMiddleware appId keyFound (.ok t) now ≠ .unauthorized none := by
  intro appId keyFound t now k hkid hkey hsig huid
  have hv : jwtVerify t appId now = .error .invalidSignature := by
    unfold jwtVerify
    rw [hsig]
    rfl
  have hrun : constructJwtMiddleware appId keyFound (.ok t) now =
      .unauthorized (some "Token is invalid".data) := by
    simp only [constructJwtMiddleware, jwtMiddlewareTry, hkid, hkey, hv]
    rfl
  exact ⟨hrun, by rw [hrun]; simp⟩

/-- A concrete token with invalid signature and missing userId. -/
def c4Token : JwtToken :=
  { kid := some "key-1".data, sigValid := false, exp := none,
    aud := some "app-id".data, userId := none, brandId := some "brand-1".data }

/-- Witness for C4 at the concrete token. -/
theorem c4_invalid_signature_before_missing_claims_witness :
    constructJwtMiddleware "app-id".data (fun _ => true) (.ok c4Token) 0 =
      .unauthorized (some "Token is invalid".data)
    ∧ constructJwtMiddleware "app-id".data (fun _ => true) (.ok c4Token) 0 ≠
      .unauthorized none :=
  c4_invalid_signature_before_missing_claims "app-id".data (fun _ => true) c4Token 0
    "key-1".data rfl rfl rfl rfl

/-! ### Claim C10: case-insensitive Bearer scheme matching -/

theorem base64ish_not_ws (c : Char) (h : base64ishChar c = true) :
    jsWhitespaceChar c = false := by
  simp only [base64ishChar, Bool.or_eq_true, Bool.and_eq_true, decide_eq_true_eq] at h
  simp only [jsWhitespaceChar, Bool.or_eq_false_iff, decide_eq_false_iff_not]
  omega

theorem takeWhile_append_of (p : Char → Bool) (w t : List Char)
    (hw : ∀ c ∈ w, p c = true) (ht : ∀ c ∈ t.take 1, p c = false) :
    (w ++ t).takeWhile p = w := by
  induction w with
  | nil =>
    cases t with
    | nil => rfl
    | cons c cs =>
      have hc := ht c (by simp)
      simp [List.takeWhile_cons, hc]
  | cons a as ih =>
    have ha := hw a (by simp)
    simp only [List.cons_append, List.takeWhile_cons, ha, if_true]
    rw [ih (fun c hc => hw c (by simp [hc]))]

theorem dropWhile_append_of (p : Char → Bool) (w t : List Char)
    (hw : ∀ c ∈ w, p c = true) (ht : ∀ c ∈ t.take 1, p c = false) :
    (w ++ t).dropWhile p = t := by
  induction w with
  | nil =>
    cases t with
    | nil => rfl
    | cons c cs =>
      have hc := ht c (by simp)
      simp [List.dropWhile_cons, hc]
  | cons a as ih =>
    have ha := hw a (by simp)
    simp only [List.cons_append, List.dropWhile_cons, ha, if_true]
    exact ih (fun c hc => hw c (by simp [hc]))

/-- C10: for every Authorization header made of the scheme word in any
letter case, nonempty whitespace, and a nonempty token drawn from the
base64url-like alphabet, getTokenFromHttpHeader returns exactly that
token. -/
theorem c10_bearer_scheme_case_insensitive :
    ∀ (s w t : List Char),
      s.map Char.toLower = "bearer".data →
      w ≠ [] → (∀ c ∈ w, jsWhitespaceChar c = true) →
      t ≠ [] → (∀ c ∈ t, base64ishChar c = true) →
      getTokenFromHttpHeader (some (s ++ w ++ t)) = .ok t := by
  intro s w t hs hw hwws ht htb
  have hslen : s.length = 6 := by
    have := congrArg List.length hs
    simpa using this
  have htops : ∀ c ∈ t.take 1, jsWhitespaceChar c = false := by
    intro c hc
    exact base64ish_not_ws c (htb c (List.mem_of_mem_take hc))
  have htake6 : (s ++ (w ++ t)).take 6 = s := by
    rw [← hslen, List.take_left]
  have hdrop6 : (s ++ (w ++ t)).drop 6 = w ++ t := by
    rw [← hslen, List.drop_left]
  have hdw : (w ++ t).dropWhile jsWhitespaceChar = t :=
    dropWhile_append_of _ w t hwws htops
  have htw : (w ++ t).takeWhile jsWhitespaceChar = w :=
    takeWhile_append_of _ w t hwws htops
  have hmb : matchesBearerScheme (s ++ (w ++ t)) = true := by
    unfold matchesBearerScheme
    rw [htake6, hdrop6, hdw, htw]
    simp only [hs, beq_self_eq_true, Bool.true_and]
    have h1 : w.isEmpty = false := by
      cases w with
      | nil => exact absurd rfl hw
      | cons a as => rfl
    have h2 : t.isEmpty = false := by
      cases t with
      | nil => exact absurd rfl ht
      | cons a as => rfl
    rw [h1, h2]
    simp only [Bool.not_false, Bool.true_and]
    rw [List.all_eq_true]
    intro c hc
    rw [base64ish_not_ws c (htb c hc)]
    rfl
  have hstrip : stripBearerScheme (s ++ (w ++ t)) = t := by
    unfold stripBearerScheme
    rw [hdrop6, hdw]
  have hll : looksLikeJWT t = true := by
    unfold looksLikeJWT
    have h2 : t.isEmpty = false := by
      cases t with
      | nil => exact absurd rfl ht
      | cons a as => rfl
    rw [h2]
    simp only [Bool.not_false, Bool.true_and, List.all_eq_true]
    intro c hc
    exact htb c hc
  simp [getTokenFromHttpHeader, hmb, hstrip, hll, ht]

/-- Witness for C10: the header BEARER followed by a space and the token
abc.def is accepted and yields that token. -/
theorem c10_bearer_scheme_case_insensitive_witness :
    getTokenFromHttpHeader (some ("BEARER".data ++ " ".data ++ "abc.def".data)) =
      .ok "abc.def".data :=
  c10_bearer_scheme_case_insensitive "BEARER".data " ".data "abc.def".data
    (by decide) (by decide) (by decide) (by decide) (by decide)

/-! ### index.ts: the nonce/CSRF handshake (Phase B of
redirectCanvaToSwayTribe) -/

/-- A JS value as it can appear in this flow: query parameters and the
results of JSON.parse. -/
inductive JsVal where
  | undef
  | nullv
  | boolv (b : Bool)
  | numv (q : ℚ)
  | strv (s : List Char)
  | arrv (xs : List JsVal)

/-- JSON whitespace. -/
def jsonWsChar (c : Char) : Bool :=
  c.toNat = 32 || c.toNat = 9 || c.toNat = 10 || c.toNat = 13

/-- Drop leading JSON whitespace. -/
def skipJsonWs (s : List Char) : List Char := s.dropWhile jsonWsChar

/-- Parse a JSON string body after the opening quote; escape sequences
are rejected (the cookie writer never produces them). -/
def jsonParseStr : List Char → List Char → Option (List Char × List Char)
  | [], _ => none
  | '"' :: r, acc => some (acc.reverse, r)
  | '\\' :: _, _ => none
  | c :: r, acc => jsonParseStr r (c :: acc)

/-- Parse an unsigned JSON number (digits with an optional fraction;
exponents are not produced in this flow). -/
def jsonParseNum (s : List Char) : Option (ℚ × List Char) :=
  let ds := s.takeWhile isDigitChar
  let r := s.dropWhile isDigitChar
  if ds.isEmpty then none
  else
    match r with
    | '.' :: r2 =>
      let fs := r2.takeWhile isDigitChar
      let r3 := r2.dropWhile isDigitChar
      if fs.isEmpty then none
      else some (mkRat (digitsVal ds * 10 ^ fs.length + digitsVal fs) (10 ^ fs.length), r3)
    | _ => some ((digitsVal ds : ℚ), r)

mutual

/-- Parse one JSON value; the fuel bounds the recursion depth and any
fuel at least twice the input length is enough. -/
def jsonParseVal : Nat → List Char → Option (JsVal × List Char)
  | 0, _ => none
  | fuel + 1, s =>
    match skipJsonWs s with
    | 'n' :: 'u' :: 'l' :: 'l' :: r => some (.nullv, r)
    | 't' :: 'r' :: 'u' :: 'e' :: r => some (.boolv true, r)
    | 'f' :: 'a' :: 'l' :: 's' :: 'e' :: r => some (.boolv false, r)
    | '"' :: r => (jsonParseStr r []).map (fun p => (.strv p.1, p.2))
    | '[' :: r =>
      match skipJsonWs r with
      | ']' :: r2 => some (.arrv [], r2)
      | _ => (jsonParseElems fuel r).map (fun p => (.arrv p.1, p.2))
    | '-' :: r => (jsonParseNum r).map (fun p => (.numv (-p.1), p.2))
    | r => (jsonParseNum r).map (fun p => (.numv p.1, p.2))

/-- Parse the comma-separated elements of a JSON array up to the closing
bracket. -/
def jsonParseElems : Nat → List Char → Option (List JsVal × List Char)
  | 0, _ => none
  | fuel + 1, s =>
    match jsonParseVal fuel s with
    | none => none
    | some (v, r) =>
      match skipJsonWs r with
      | ',' :: r2 =>
        match jsonParseElems fuel r2 with
        | none => none
        | some (vs, r3) => some (v :: vs, r3)
      | ']' :: r2 => some ([v], r2)
      | _ => none

end

/-- JSON.parse on a string: one value and nothing but trailing
whitespace, else a SyntaxError, modeled as none. (Objects are rejected;
the cookie in this flow is always an array, string, number or literal.) -/
def jsonParse (s : List Char) : Option JsVal :=
  match jsonParseVal (2 * s.length + 2) s with
  | some (v, r) => if (skipJsonWs r).isEmpty then some v else none
  | none => none

/-- The signed cookie as cookie-parser delivers it: undefined when
absent, false when the signature does not verify, otherwise its string
value. -/
inductive CookieVal where
  | absent
  | badSignature
  | value (s : List Char)

/-- The string JSON.parse coerces its argument to: String(undefined) is
"undefined", String(false) is "false". -/
def cookieParseInput : CookieVal → List Char
  | .absent => "undefined".data
  | .badSignature => "false".data
  | .value s => s

/-- JS array destructuring of two positions, which throws on
non-iterables: arrays yield their first two elements (undefined past the
end), strings iterate characterwise, everything else is a TypeError,
modeled as none. -/
def destructure2 : JsVal → Option (JsVal × JsVal)
  | .arrv xs => some (xs.getD 0 .undef, xs.getD 1 .undef)
  | .strv s =>
    some (match s with
          | [] => .undef
          | c :: _ => .strv [c],
          match s with
          | _ :: c :: _ => .strv [c]
          | _ => .undef)
  | _ => none

/-- JS ToNumber on the values reachable here: undefined is NaN, null is
0, booleans are 0 or 1, strings parse as Number() does, the empty array
is 0, a one-element array of a number or string joins to that element
(other arrays join with commas or to non-numeric text and are NaN; the
exotic nested-array cases are out of scope and also map to NaN). -/
def jsToNumber : JsVal → Option ℚ
  | .undef => none
  | .nullv => some 0
  | .boolv b => some (if b then 1 else 0)
  | .numv q => some q
  | .strv s => jsStringToNumber s
  | .arrv [] => some 0
  | .arrv [.numv q] => some q
  | .arrv [.strv s] => jsStringToNumber s
  | .arrv _ => none

/-- The comparison now > expiry of the code, under ToNumber coercion of
the right operand; any NaN makes it false. -/
def jsGreaterThan (a : ℚ) (b : JsVal) : Bool :=
  match jsToNumber b with
  | some q => Rat.blt q a
  | none => false

/-- typeof v === "string". -/
def isStringVal : JsVal → Bool
  | .strv _ => true
  | _ => false

/-- The length the code reads off a nonce value (only ever evaluated on
strings, after the typeof guard). -/
def jsValStrLength : JsVal → Nat
  | .strv s => s.length
  | _ => 0

/-- JS strict equality on the values compared here: same primitive type
and value; arrays compare by reference and the two nonce sources are
always distinct objects, so the array case is false. -/
def jsStrictEq : JsVal → JsVal → Bool
  | .undef, .undef => true
  | .nullv, .nullv => true
  | .boolv a, .boolv b => a == b
  | .numv a, .numv b => a == b
  | .strv a, .strv b => a == b
  | _, _ => false

/-- The disjunction of the if-condition guarding the invalid-nonce
throw, in source order: expired, cookie nonce not a string, query nonce
not a string, cookie nonce empty, query nonce empty, mismatch. -/
def nonceChecksFail (now : ℚ) (nonceCookie nonceExpiry nonceQuery : JsVal) : Bool :=
  jsGreaterThan now nonceExpiry ||
  ! isStringVal nonceCookie ||
  ! isStringVal nonceQuery ||
  decide (jsValStrLength nonceCookie < 1) ||
  decide (jsValStrLength nonceQuery < 1) ||
  ! jsStrictEq nonceCookie nonceQuery

/-- The request surface Phase B reads: the nonce and state query
parameters and the signed nonceWithExpiry cookie. -/
structure NonceRequest where
  queryNonce : JsVal
  queryState : JsVal
  signedCookie : CookieVal

/-- The outcome of the Phase B nonce gate: the 302 redirect to the error
page carrying success=false, the original state and errors=invalid_nonce,
or the fall-through to JWT verification. -/
inductive NonceOutcome where
  | invalidNonceRedirect (state : JsVal)
  | proceedToJwt

/-- Phase B of redirectCanvaToSwayTribe from index.ts, up to the JWT
middleware: parse the signed cookie (JSON.parse throws on the coerced
string when the cookie is absent, tampered or unparseable), destructure
the pair (throws on non-iterables), clear the cookie, then run the
validity checks; every throw lands in the catch, which redirects with
errors=invalid_nonce. The boolean records whether res.clearCookie ran. -/
def redirectCanvaToSwayTribeNonceGate (req : NonceRequest) (now : ℚ) :
    NonceOutcome × Bool :=
  match jsonParse (cookieParseInput req.signedCookie) with
  | none => (.invalidNonceRedirect req.queryState, false)
  | some v =>
    match destructure2 v with
    | none => (.invalidNonceRedirect req.queryState, false)
    | some (nonceCookie, nonceExpiry) =>
      if nonceChecksFail now nonceCookie nonceExpiry req.queryNonce then
        (.invalidNonceRedirect req.queryState, true)
      else (.proceedToJwt, true)

/-- The cookie parsed and destructured to the nonce and expiry pair, or
none when absent or unparseable. -/
def parsedNoncePair (c : CookieVal) : Option (JsVal × JsVal) :=
  (jsonParse (cookieParseInput c)).bind destructure2

/-- The spec reading of "a non-empty string". -/
def isNonEmptyString (v : JsVal) : Bool :=
  isStringVal v && ! decide (jsValStrLength v < 1)


/-! ### Claim C8: the invalid-nonce rejection condition -/

theorem nonceChecksFail_iff (now : ℚ) (c e q : JsVal) :
    nonceChecksFail now c e q = true ↔
      (jsGreaterThan now e = true ∨ isNonEmptyString c = false ∨
       isNonEmptyString q = false ∨ jsStrictEq c q = false) := by
  simp only [nonceChecksFail, isNonEmptyString, Bool.or_eq_true, Bool.not_eq_true',
    Bool.and_eq_false_iff, Bool.not_eq_false', decide_eq_true_eq, decide_eq_false_iff_not,
    Bool.not_eq_true, Bool.and_eq_true]
  tauto

theorem redirectNonceGate_as_parsed (req : NonceRequest) (now : ℚ) :
    redirectCanvaToSwayTribeNonceGate req now =
      match parsedNoncePair req.signedCookie with
      | none => (.invalidNonceRedirect req.queryState, false)
      | some (nc, ne) =>
        if nonceChecksFail now nc ne req.queryNonce then
          (.invalidNonceRedirect req.queryState, true)
        else (.proceedToJwt, true) := by
  unfold redirectCanvaToSwayTribeNonceGate parsedNoncePair
  cases jsonParse (cookieParseInput req.signedCookie) with
  | none => rfl
  | some v =>
    simp only [Option.some_bind]

theorem redirectNonceGate_parsed_none (req : NonceRequest) (now : ℚ)
    (h : parsedNoncePair req.signedCookie = none) :
    redirectCanvaToSwayTribeNonceGate req now =
      (.invalidNonceRedirect req.queryState, false) := by
  rw [redirectNonceGate_as_parsed, h]

theorem redirectNonceGate_parsed_some (req : NonceRequest) (now : ℚ) (nc ne : JsVal)
    (h : parsedNoncePair req.signedCookie = some (nc, ne)) :
    redirectCanvaToSwayTribeNonceGate req now =
      (if nonceChecksFail now nc ne req.queryNonce then
        (.invalidNonceRedirect req.queryState, true)
      else (.proceedToJwt, true)) := by
  rw [redirectNonceGate_as_parsed, h]

/-- C8: Phase B redirects with success=false, the original state and
errors=invalid_nonce exactly when the signed cookie fails to parse and
destructure to a pair, or the current time is past the parsed expiry, or
either nonce value is not a non-empty string, or the cookie nonce is not
strictly equal to the query nonce; otherwise it proceeds to JWT
verification. -/
theorem c8_invalid_nonce_characterization :
    ∀ (req : NonceRequest) (now : ℚ),
      ((redirectCanvaToSwayTribeNonceGate req now).1 =
          .invalidNonceRedirect req.queryState ↔
        (parsedNoncePair req.signedCookie = none ∨
         ∃ nc ne, parsedNoncePair req.signedCookie = some (nc, ne) ∧
           (jsGreaterThan now ne = true ∨ isNonEmptyString nc = false ∨
            isNonEmptyString req.queryNonce = false ∨
            jsStrictEq nc req.queryNonce = false)))
      ∧ ((redirectCanvaToSwayTribeNonceGate req now).1 = .proceedToJwt ↔
        (∃ nc ne, parsedNoncePair req.signedCookie = some (nc, ne) ∧
           ¬ (jsGreaterThan now ne = true ∨ isNonEmptyString nc = false ∨
              isNonEmptyString req.queryNonce = false ∨
              jsStrictEq nc req.queryNonce = false))) := by
  intro req now
  cases hpp : parsedNoncePair req.signedCookie with
  | none =>
    rw [redirectNonceGate_parsed_none req now hpp]
    simp
  | some pr =>
    obtain ⟨nc, ne⟩ := pr
    rw [redirectNonceGate_parsed_some req now nc ne hpp]
    cases hc : nonceChecksFail now nc ne req.queryNonce with
    | true =>
      have hcond := (nonceChecksFail_iff now nc ne req.queryNonce).mp hc
      constructor
      · exact iff_of_true rfl (Or.inr ⟨nc, ne, rfl, hcond⟩)
      · refine iff_of_false (by simp) ?_
        rintro ⟨a, b, hab, hnd⟩
        obtain ⟨rfl, rfl⟩ : nc = a ∧ ne = b := by
          injection hab with h
          injection h with h1 h2
          exact ⟨h1, h2⟩
        exact hnd hcond
    | false =>
      have hncond : ¬ (jsGreaterThan now ne = true ∨ isNonEmptyString nc = false ∨
          isNonEmptyString req.queryNonce = false ∨
          jsStrictEq nc req.queryNonce = false) := by
        intro h
        have h2 := (nonceChecksFail_iff now nc ne req.queryNonce).mpr h
        rw [hc] at h2
        exact Bool.false_ne_true h2
      constructor
      · refine iff_of_false (by simp) ?_
        rintro (h | ⟨a, b, hab, hd⟩)
        · exact Option.noConfusion h
        · obtain ⟨rfl, rfl⟩ : nc = a ∧ ne = b := by
            injection hab with h
            injection h with h1 h2
            exact ⟨h1, h2⟩
          exact hncond hd
      · exact iff_of_true rfl ⟨nc, ne, rfl, hncond⟩

/-! ### Claim C2: cookie clearing and replay -/

/-- A Phase B request carrying a garbage (unparseable) signed cookie. -/
def c2GarbageRequest : NonceRequest :=
  { queryNonce := .strv "abc".data, queryState := .strv "xyz".data,
    signedCookie := .value "###".data }

/-- C2, counterexample: on a request whose cookie value does not parse,
res.clearCookie never runs (JSON.parse throws first), so the cookie is
not cleared on every request: the claim fails for absent or unparseable
cookies. -/
theorem c2_counterexample :
    (redirectCanvaToSwayTribeNonceGate c2GarbageRequest 0).2 = false := by
  rfl

/-- C2, amended: the cookie is cleared exactly when its value parses and
destructures to the nonce and expiry pair, whether or not the nonce then
validates; when the cookie is absent or unparseable nothing is cleared
but the request is still rejected as an invalid nonce. In particular a
replay arriving after the cookie was cleared (so with no cookie) is
rejected as an invalid nonce. -/
theorem c2_cookie_cleared_iff_parsed :
    (∀ (req : NonceRequest) (now : ℚ),
      (redirectCanvaToSwayTribeNonceGate req now).2 = true ↔
        parsedNoncePair req.signedCookie ≠ none)
    ∧ (∀ (qn qs : JsVal) (now : ℚ),
        redirectCanvaToSwayTribeNonceGate ⟨qn, qs, .absent⟩ now =
          (.invalidNonceRedirect qs, false)) := by
  constructor
  · intro req now
    cases hpp : parsedNoncePair req.signedCookie with
    | none =>
      rw [redirectNonceGate_parsed_none req now hpp]
      simp [hpp]
    | some pr =>
      obtain ⟨nc, ne⟩ := pr
      rw [redirectNonceGate_parsed_some req now nc ne hpp]
      cases hc : nonceChecksFail now nc ne req.queryNonce with
      | true => simp
      | false => simp
  · intro qn qs now
    rfl

/-! ### Claim C9: the method gate of the signed endpoints -/

/-- The outcome of the prologue of a signed request handler. -/
inductive GateOutcome where
  | reject (status : Nat) (message : List Char)
  | proceed
deriving DecidableEq

/-- The prologue of unlinkUserFromCanva (the signed-webhook form):
require the configured secret, then require the POST method, and only
then invoke the signature verifier; a wrong method is answered 401
Invalid request method type. The verifier is a parameter, so its
non-invocation on the wrong-method path is expressible as insensitivity
to it. -/
def unlinkUserFromCanvaMethodGate {α : Type} (secret : Option (List Char))
    (isValidPost : List Char → α → Bool) (method : List Char) (req : α) : GateOutcome :=
  match secret with
  | none => .reject 401 "Secret key not found".data
  | some s =>
    if method == "POST".data then
      if ! isValidPost s req then .reject 401 "Failed signature test".data
      else .proceed
    else .reject 401 "Invalid request method type".data

/-- The prologue of redirectCanvaToSwayTribe (the signed-redirect form):
as above with the GET method and the redirect-URL verifier. -/
def redirectCanvaToSwayTribeMethodGate {α : Type} (secret : Option (List Char))
    (isValidRedirect : List Char → α → Bool) (method : List Char) (req : α) : GateOutcome :=
  match secret with
  | none => .reject 401 "Secret key not found".data
  | some s =>
    if method == "GET".data then
      if ! isValidRedirect s req then .reject 401 "Failed signature test".data
      else .proceed
    else .reject 401 "Invalid request method type".data

/-- C9: with the secret configured, a request with the wrong method for a
signed endpoint is answered 401 Invalid request method type, and the
outcome does not depend on the signature verifier at all (so the verifier
is never consulted: the method check precedes signature verification). -/
theorem c9_wrong_method_rejected_first :
    ∀ (α : Type) (s : List Char) (checker checker2 : List Char → α → Bool)
      (method : List Char) (req : α),
      (method ≠ "POST".data →
        unlinkUserFromCanvaMethodGate (some s) checker method req =
          .reject 401 "Invalid request method type".data
        ∧ unlinkUserFromCanvaMethodGate (some s) checker method req =
          unlinkUserFromCanvaMethodGate (some s) checker2 method req)
      ∧ (method ≠ "GET".data →
        redirectCanvaToSwayTribeMethodGate (some s) checker method req =
          .reject 401 "Invalid request method type".data
        ∧ redirectCanvaToSwayTribeMethodGate (some s) checker method req =
          redirectCanvaToSwayTribeMethodGate (some s) checker2 method req) := by
  intro α s checker checker2 method req
  constructor
  · intro hm
    have hb : (method == "POST".data) = false := beq_eq_false_iff_ne.mpr hm
    constructor
    · simp [unlinkUserFromCanvaMethodGate, hb]
    · simp [unlinkUserFromCanvaMethodGate, hb]
  · intro hm
    have hb : (method == "GET".data) = false := beq_eq_false_iff_ne.mpr hm
    constructor
    · simp [redirectCanvaToSwayTribeMethodGate, hb]
    · simp [redirectCanvaToSwayTribeMethodGate, hb]

/-- Witness for C9: a GET to the webhook endpoint and a POST to the
redirect endpoint are both answered 401 Invalid request method type. -/
theorem c9_wrong_method_rejected_first_witness :
    unlinkUserFromCanvaMethodGate (some []) (fun (_ : List Char) (_ : Unit) => true)
        "GET".data () = .reject 401 "Invalid request method type".data
    ∧ redirectCanvaToSwayTribeMethodGate (some []) (fun (_ : List Char) (_ : Unit) => true)
        "POST".data () = .reject 401 "Invalid request method type".data :=
  ⟨((c9_wrong_method_rejected_first Unit [] (fun _ _ => true) (fun _ _ => false)
      "GET".data ()).1 (by decide)).1,
   ((c9_wrong_method_rejected_first Unit [] (fun _ _ => true) (fun _ _ => false)
      "POST".data ()).2 (by decide)).1⟩
